import Mathlib

/-!
Shallow embedding of the `ems` Modbus supervisory client
(`src/modbus/client.rs`, `src/device_configuration/modbus.rs`) and proofs
about its connection lifecycle, read/write dispatch, validation and
configuration loading.

Transport interaction is modelled by an explicit environment: each
transport method of the underlying `tokio_modbus` context is an oracle
telling what the awaited, timeout-raced call produces.  The four possible
outcomes of one raced transport call are:

* the timeout fires (`tokio::time::timeout` returns `Err(Elapsed)`),
* the call resolves to an outer transport error (`Err(io-ish error)`),
* the call resolves to `Ok(Err(exception))` — a Modbus exception response,
* the call resolves to `Ok(Ok(value))`.

Machine integers (`u8`, `u16`) are embedded as `Nat`: the client never
performs arithmetic on them — they are only compared against literals and
passed through — so no wrap-around can occur in the embedded fragment.
Every embedded operation also returns the list of transport calls it
issued, so that "no transport call is made" is directly statable.
-/

namespace Modbus

/-- Result of one transport call raced against its `tokio::time::timeout`. -/
inductive FetchResult (α : Type) where
  | elapsed
  | ioError (msg : String)
  | exceptionResponse (code : Nat)
  | success (val : α)
deriving DecidableEq

/-- Oracle for the underlying `tokio_modbus::client::Context` methods:
for given arguments, what does the raced call produce. -/
structure TransportEnv where
  read_coils : Nat → Nat → FetchResult (List Bool)
  read_discrete_inputs : Nat → Nat → FetchResult (List Bool)
  read_holding_registers : Nat → Nat → FetchResult (List Nat)
  read_input_registers : Nat → Nat → FetchResult (List Nat)
  write_single_coil : Nat → Bool → FetchResult Unit
  write_multiple_coils : Nat → List Bool → FetchResult Unit
  write_single_register : Nat → Nat → FetchResult Unit
  write_multiple_registers : Nat → List Nat → FetchResult Unit

/-- A record of one transport call that `read_registers`/`write_registers`
issued: which context method, with which arguments, raced against which
timeout (in seconds). -/
inductive TransportCall where
  | readCoils (address quantity timeoutSecs : Nat)
  | readDiscreteInputs (address quantity timeoutSecs : Nat)
  | readHoldingRegisters (address quantity timeoutSecs : Nat)
  | readInputRegisters (address quantity timeoutSecs : Nat)
  | writeSingleCoil (address : Nat) (coil : Bool) (timeoutSecs : Nat)
  | writeMultipleCoils (address : Nat) (coils : List Bool) (timeoutSecs : Nat)
  | writeSingleRegister (address value timeoutSecs : Nat)
  | writeMultipleRegisters (address : Nat) (values : List Nat) (timeoutSecs : Nat)
deriving DecidableEq

/-- Cause of a failed connection attempt, per the error taxonomy:
both an unparsable address and a transport-level establishment failure
are `ConnectionError`s, kept distinguishable here. -/
inductive ConnFailure where
  | addrParse
  | transport (msg : String)
deriving DecidableEq

/-- The error values the client returns (each constructor corresponds to a
distinct `Err(... .into())` site in `src/modbus/client.rs`). -/
inductive MbError where
  | notConnected
  | elapsed
  | unsupportedFunction
  | invalidArgument (msg : String)
  | protocol (code : Nat)
  | transport (msg : String)
  | writeTimeout
  | connectionTimeout
  | connection (cause : ConnFailure)
  | disconnectFailure (msg : String)
deriving DecidableEq

/-- Outcome of one embedded operation: a returned value, a returned error,
or a Rust panic (an `expect` / out-of-bounds index in the source). -/
inductive Outcome (α : Type) where
  | ok (val : α)
  | err (e : MbError)
  | panicked (msg : String)
deriving DecidableEq

/-- The transport context held after a successful connect.  Its internal
state is irrelevant to the claims, only its presence/absence matters. -/
abbrev Context := Unit

/-- Embedding of `ModbusDevice` from `src/modbus/client.rs` (ip, port, slave id). -/
structure ModbusDevice where
  ip : String
  port : Nat
  slave_id : Nat
deriving DecidableEq

/-- Embedding of `ModbusClient`: a device plus an optional transport context. -/
structure ModbusClient where
  device : ModbusDevice
  ctx : Option Context
deriving DecidableEq

/-- Embedding of `ModbusClient::new`. -/
def ModbusClient.new (device : ModbusDevice) : ModbusClient :=
  { device := device, ctx := none }

/-- Widening of one coil/discrete-input bit to a 16-bit register value
(`if b { 1 } else { 0 }` in the source). -/
def boolToRegister (b : Bool) : Nat := if b then 1 else 0

/-- Coil encoding of a register value for write codes 0x05/0x0F
(`v >= 1` in the source). -/
def coilValue (v : Nat) : Bool := decide (1 ≤ v)

/-- Result of an embedded read: the outcome, the client afterwards, and the
transport calls issued. -/
structure ReadRes where
  outcome : Outcome (List Nat)
  client : ModbusClient
  calls : List TransportCall
deriving DecidableEq

/-- Result of an embedded write. -/
structure WriteRes where
  outcome : Outcome Unit
  client : ModbusClient
  calls : List TransportCall
deriving DecidableEq

/-- Embedding of `ModbusOperation::read_registers` for `ModbusClient`
(`src/modbus/client.rs` lines 131–196).  Notable points traced from the
source, which compiles against the nested-result `tokio_modbus` client API
(`Result<Result<T, Exception>, Error>` under the timeout):

* absent context: `ok_or("客户端未连接")?` returns the not-connected error;
* 0x01/0x02: `timeout(...).await?` propagates the elapsed timer;
  `.expect(...)` panics on the outer transport error; the subsequent
  `.into_iter().flatten()` over the remaining `Result<Vec<bool>, _>`
  yields the empty iterator when that value is an exception response, so
  an exception becomes `Ok(vec![])`;
* 0x03/0x04: same timeout/`expect` handling, but the exception response
  reaches the final `match result` and is returned as `Err(e.into())`;
* any other code: `Err("不支持的功能码")` with no transport call. -/
def ModbusClient.read_registers (self : ModbusClient) (env : TransportEnv)
    (function_code address quantity : Nat) : ReadRes :=
  match self.ctx with
  | none => ⟨.err .notConnected, self, []⟩
  | some _ =>
    if function_code = 0x01 then
      let call := TransportCall.readCoils address quantity 5
      match env.read_coils address quantity with
      | .elapsed => ⟨.err .elapsed, self, [call]⟩
      | .ioError _ => ⟨.panicked "读取线圈失败", self, [call]⟩
      | .exceptionResponse _ => ⟨.ok [], self, [call]⟩
      | .success bits => ⟨.ok (bits.map boolToRegister), self, [call]⟩
    else if function_code = 0x02 then
      let call := TransportCall.readDiscreteInputs address quantity 1
      match env.read_discrete_inputs address quantity with
      | .elapsed => ⟨.err .elapsed, self, [call]⟩
      | .ioError _ => ⟨.panicked "读取离散输入失败", self, [call]⟩
      | .exceptionResponse _ => ⟨.ok [], self, [call]⟩
      | .success bits => ⟨.ok (bits.map boolToRegister), self, [call]⟩
    else if function_code = 0x03 then
      let call := TransportCall.readHoldingRegisters address quantity 5
      match env.read_holding_registers address quantity with
      | .elapsed => ⟨.err .elapsed, self, [call]⟩
      | .ioError _ => ⟨.panicked "读取保持寄存器失败", self, [call]⟩
      | .exceptionResponse c => ⟨.err (.protocol c), self, [call]⟩
      | .success words => ⟨.ok words, self, [call]⟩
    else if function_code = 0x04 then
      let call := TransportCall.readInputRegisters address quantity 5
      match env.read_input_registers address quantity with
      | .elapsed => ⟨.err .elapsed, self, [call]⟩
      | .ioError _ => ⟨.panicked "读取输入寄存器失败", self, [call]⟩
      | .exceptionResponse c => ⟨.err (.protocol c), self, [call]⟩
      | .success words => ⟨.ok words, self, [call]⟩
    else
      ⟨.err .unsupportedFunction, self, []⟩

/-- Shaping of a raced write call's result by the final `match result`
of `write_registers`: the elapsed timer becomes the write-timeout error,
the outer transport error is propagated, and — because the source pattern
`Ok(_)` also matches `Ok(Err(exception))` — an exception response is
reported as success. -/
def writeShape (r : FetchResult Unit) : Outcome Unit :=
  match r with
  | .elapsed => .err .writeTimeout
  | .ioError m => .err (.transport m)
  | .exceptionResponse _ => .ok ()
  | .success _ => .ok ()

/-- Embedding of `ModbusOperation::write_registers` for `ModbusClient`
(`src/modbus/client.rs` lines 198–268).  Branches in source order
(0x05, 0x0F, 0x06, 0x10):

* 0x05/0x06 check `quantity != 1` before touching the transport, then
  index `values[0]` unchecked — on an empty vector that is a Rust panic
  (out-of-bounds), not an error return;
* 0x0F/0x10 check `values.len() != quantity` before touching the
  transport;
* coil codes map each transmitted value through `v >= 1`;
* any other code: `Err("不支持的功能码")` with no transport call. -/
def ModbusClient.write_registers (self : ModbusClient) (env : TransportEnv)
    (function_code address quantity : Nat) (values : List Nat) : WriteRes :=
  match self.ctx with
  | none => ⟨.err .notConnected, self, []⟩
  | some _ =>
    if function_code = 0x05 then
      if quantity ≠ 1 then
        ⟨.err (.invalidArgument "功能码0x05仅支持写入单个线圈"), self, []⟩
      else
        match values.get? 0 with
        | none => ⟨.panicked "index out of bounds: the len is 0 but the index is 0", self, []⟩
        | some v =>
          let coil := coilValue v
          ⟨writeShape (env.write_single_coil address coil), self,
            [.writeSingleCoil address coil 5]⟩
    else if function_code = 0x0F then
      if values.length ≠ quantity then
        ⟨.err (.invalidArgument "值的长度是与数量不匹配"), self, []⟩
      else
        let coils := values.map coilValue
        ⟨writeShape (env.write_multiple_coils address coils), self,
          [.writeMultipleCoils address coils 5]⟩
    else if function_code = 0x06 then
      if quantity ≠ 1 then
        ⟨.err (.invalidArgument "功能码0x06仅支持写入单个寄存器"), self, []⟩
      else
        match values.get? 0 with
        | none => ⟨.panicked "index out of bounds: the len is 0 but the index is 0", self, []⟩
        | some v =>
          ⟨writeShape (env.write_single_register address v), self,
            [.writeSingleRegister address v 5]⟩
    else if function_code = 0x10 then
      if values.length ≠ quantity then
        ⟨.err (.invalidArgument "值的长度与数量不匹配"), self, []⟩
      else
        ⟨writeShape (env.write_multiple_registers address values), self,
          [.writeMultipleRegisters address values 5]⟩
    else
      ⟨.err .unsupportedFunction, self, []⟩

/-- What the connection attempt (`tcp::connect_slave` raced against the
5-second timeout) produces. -/
inductive ConnectAttempt where
  | elapsed
  | failed (msg : String)
  | established
deriving DecidableEq

/-- Environment for `connect`: whether `"{ip}:{port}".parse()` succeeds,
and what the raced connection attempt produces. -/
structure ConnectEnv where
  parse_ok : Bool
  attempt : ConnectAttempt
deriving DecidableEq

/-- Embedding of `ModbusClient::connect` (`src/modbus/client.rs` lines 98–126):
an unparsable socket address is propagated by `?` (a `ConnectionError` in
the taxonomy, kept distinguishable as `ConnFailure.addrParse`); within the
5-second window an established session stores the context and a transport
failure is propagated; an elapsed timer yields `"Connection timeout"`. -/
def ModbusClient.connect (self : ModbusClient) (env : ConnectEnv) :
    Outcome Unit × ModbusClient :=
  if env.parse_ok = false then
    (.err (.connection .addrParse), self)
  else
    match env.attempt with
    | .established => (.ok (), { self with ctx := some () })
    | .failed m => (.err (.connection (.transport m)), self)
    | .elapsed => (.err .connectionTimeout, self)

/-- Environment for `disconnect`: result of `ctx.disconnect().await`
(`none` = orderly close succeeded, `some msg` = close failed). -/
structure DisconnectEnv where
  close_result : Option String
deriving DecidableEq

/-- Embedding of `ModbusOperation::disconnect` (`src/modbus/client.rs` lines 270–279):
with no context it is a successful no-op; with a context a close failure is
returned as an error.  The source borrows the context with
`self.ctx.as_mut()` and never assigns `self.ctx = None`, so the stored
context survives `disconnect` on every path. -/
def ModbusClient.disconnect (self : ModbusClient) (env : DisconnectEnv) :
    Outcome Unit × ModbusClient :=
  match self.ctx with
  | none => (.ok (), self)
  | some _ =>
    match env.close_result with
    | some m => (.err (.disconnectFailure m), self)
    | none => (.ok (), self)

end Modbus

namespace DeviceConfig

/-- Embedding of `ModbusDevice` from `src/device_configuration/modbus.rs` (one gateway
entry: ip, port, list of slave ids). -/
structure ModbusDevice where
  ip : String
  port : Nat
  slave_ids : List Nat
deriving DecidableEq

/-- Embedding of `Config` from `src/device_configuration/modbus.rs`. -/
structure Config where
  gateways : List ModbusDevice
deriving DecidableEq

/-- Embedding of `default_config` (`src/device_configuration/modbus.rs` lines 24–32):
a single placeholder entry `{ ip: "模板", port: 0, slave_ids: [] }`. -/
def default_config : Config :=
  { gateways := [{ ip := "模板", port := 0, slave_ids := [] }] }

/-- The file system visible to `read_config`: a path-to-contents map
(first binding wins). -/
structure FsState where
  files : List (String × String)
deriving DecidableEq

/-- Embedding of `Path::try_exists` (modulo its own error, held in the environment). -/
def FsState.hasFile (fs : FsState) (p : String) : Bool :=
  (fs.files.lookup p).isSome

/-- Create/overwrite a file. -/
def FsState.writeFile (fs : FsState) (p contents : String) : FsState :=
  ⟨(p, contents) :: fs.files⟩

/-- Errors of the embedded `read_config` (each corresponds to a `?` site
in the source). -/
inductive ConfigError where
  | ioErr (site : String)
  | yamlErr (site : String)
deriving DecidableEq

/-- Result of the embedded `read_config`. -/
inductive ConfigResult where
  | ok (config : Config)
  | error (e : ConfigError)
deriving DecidableEq

/-- Environment for `read_config`: the `serde_yaml` codec and which
filesystem operations fail. -/
structure ConfigIoEnv where
  to_yaml : Config → Option String
  from_yaml : String → Option Config
  try_exists_error : Bool
  open_error : Bool
  write_error : Bool
  read_error : Bool

/-- Embedding of `read_config` (`src/device_configuration/modbus.rs` lines 35–69):
if the file does not exist, serialize `default_config`, create the file,
write the serialized text and return the default config as success;
otherwise open, read and parse the file.  Every fallible step propagates
its error with `?`. -/
def read_config (env : ConfigIoEnv) (fs : FsState) (file_path : String) :
    ConfigResult × FsState :=
  if env.try_exists_error then (.error (.ioErr "try_exists"), fs)
  else if fs.hasFile file_path = false then
    match env.to_yaml default_config with
    | none => (.error (.yamlErr "to_string"), fs)
    | some yaml =>
      if env.open_error then (.error (.ioErr "open"), fs)
      else if env.write_error then
        (.error (.ioErr "write_all"), fs.writeFile file_path "")
      else
        (.ok default_config, fs.writeFile file_path yaml)
  else
    if env.read_error then (.error (.ioErr "read_to_string"), fs)
    else
      match fs.files.lookup file_path with
      | none => (.error (.ioErr "open"), fs)
      | some contents =>
        match env.from_yaml contents with
        | none => (.error (.yamlErr "from_str"), fs)
        | some config => (.ok config, fs)

end DeviceConfig

open Modbus

/-- A sample device endpoint (the scenario endpoint of the spec). -/
def sampleDevice : ModbusDevice := { ip := "10.0.0.5", port := 502, slave_id := 3 }

/-- A client holding a live transport context. -/
def connectedClient : ModbusClient := { device := sampleDevice, ctx := some () }

/-- A freshly constructed client (no context yet). -/
def freshClient : ModbusClient := ModbusClient.new sampleDevice

/-- A transport environment in which every call succeeds with fixed data. -/
def okEnv : TransportEnv where
  read_coils := fun _ _ => .success [true, false, true]
  read_discrete_inputs := fun _ _ => .success [true, false, true]
  read_holding_registers := fun _ _ => .success [10, 20, 30]
  read_input_registers := fun _ _ => .success [10, 20, 30]
  write_single_coil := fun _ _ => .success ()
  write_multiple_coils := fun _ _ => .success ()
  write_single_register := fun _ _ => .success ()
  write_multiple_registers := fun _ _ => .success ()

/-- A transport environment in which reading coils yields a Modbus
exception response (code 2, illegal data address) within the timeout. -/
def exnEnv : TransportEnv :=
  { okEnv with read_coils := fun _ _ => .exceptionResponse 2 }

/-- A configuration-loading environment with a functioning codec and no
filesystem failures. -/
def sampleConfigEnv : DeviceConfig.ConfigIoEnv where
  to_yaml := fun _ => some "gateways: 模板"
  from_yaml := fun _ => none
  try_exists_error := false
  open_error := false
  write_error := false
  read_error := false

/-- Helper: `read_registers` returns its client unchanged on every path. -/
theorem read_registers_client (c : ModbusClient) (env : TransportEnv)
    (fc a q : Nat) : (c.read_registers env fc a q).client = c := by
  obtain ⟨dev, ctx⟩ := c
  cases ctx with
  | none => rfl
  | some u =>
    unfold ModbusClient.read_registers
    repeat' split
    all_goals rfl

/-- Helper: `write_registers` returns its client unchanged on every path. -/
theorem write_registers_client (c : ModbusClient) (env : TransportEnv)
    (fc a q : Nat) (vs : List Nat) :
    (c.write_registers env fc a q vs).client = c := by
  obtain ⟨dev, ctx⟩ := c
  cases ctx with
  | none => rfl
  | some u =>
    unfold ModbusClient.write_registers
    repeat' split
    all_goals rfl

/-- Claim C1 counterexample: on a connected client, `disconnect` returns
success but leaves the transport context stored, and a subsequent 0x03
read reaches the transport and succeeds instead of failing with the
not-connected error. -/
theorem c1_counterexample :
    (connectedClient.disconnect ⟨none⟩).1 = .ok () ∧
    ((connectedClient.disconnect ⟨none⟩).2).ctx = some () ∧
    ((connectedClient.disconnect ⟨none⟩).2.read_registers okEnv 0x03 0 3).outcome
      = .ok [10, 20, 30] ∧
    ((connectedClient.disconnect ⟨none⟩).2.read_registers okEnv 0x03 0 3).outcome
      ≠ .err .notConnected := by
  refine ⟨rfl, rfl, rfl, ?_⟩
  intro h
  exact Outcome.noConfusion h

/-- Claim C1 (amended): for every function code, address and quantity,
`read_registers`/`write_registers` on a client whose transport context is
absent fail with the not-connected error without issuing any transport
call; but `disconnect` never clears the stored context, so a client
connected once never returns to the context-absent state through
`disconnect`. -/
theorem c1_not_connected_gating (env : TransportEnv) (denv : DisconnectEnv)
    (c : ModbusClient) (fc a q : Nat) (vs : List Nat) (h : c.ctx = none) :
    (c.read_registers env fc a q).outcome = .err .notConnected ∧
    (c.read_registers env fc a q).calls = [] ∧
    (c.write_registers env fc a q vs).outcome = .err .notConnected ∧
    (c.write_registers env fc a q vs).calls = [] ∧
    ∀ cl : ModbusClient, ((cl.disconnect denv).2).ctx = cl.ctx := by
  obtain ⟨dev, ctx⟩ := c
  change ctx = none at h
  subst h
  refine ⟨rfl, rfl, rfl, rfl, ?_⟩
  intro cl
  obtain ⟨dev2, ctx2⟩ := cl
  obtain ⟨cr⟩ := denv
  cases ctx2 with
  | none => rfl
  | some u => cases cr <;> rfl

/-- Claim C1 witness: concrete instantiation of the amended statement at a
fresh client and a successfully closing disconnect. -/
theorem c1_witness :
    (freshClient.read_registers okEnv 0x03 0 3).outcome = .err .notConnected ∧
    (freshClient.read_registers okEnv 0x03 0 3).calls = [] ∧
    (freshClient.write_registers okEnv 0x10 0 1 [7]).outcome = .err .notConnected ∧
    (freshClient.write_registers okEnv 0x10 0 1 [7]).calls = [] ∧
    ((connectedClient.disconnect ⟨none⟩).2).ctx = connectedClient.ctx := by
  have h := c1_not_connected_gating okEnv ⟨none⟩ freshClient 0x03 0 3 [7] rfl
  have h2 := c1_not_connected_gating okEnv ⟨none⟩ freshClient 0x10 0 1 [7] rfl
  exact ⟨h.1, h.2.1, h2.2.2.1, h2.2.2.2.1, h.2.2.2.2 connectedClient⟩

/-- Claim C2 (code-bug evidence): on a connected client, a Modbus
exception response to a 0x01 read arriving within the timeout window is
not returned as a protocol error — the transport call is issued, and the
`flatten` over the nested result turns the exception into an empty
successful read, so no error value of any kind reaches the caller. -/
theorem c2_exception_swallowed :
    (connectedClient.read_registers exnEnv 0x01 0 3).outcome = .ok [] ∧
    (connectedClient.read_registers exnEnv 0x01 0 3).calls = [.readCoils 0 3 5] ∧
    ∀ e : MbError,
      (connectedClient.read_registers exnEnv 0x01 0 3).outcome ≠ .err e := by
  refine ⟨rfl, rfl, ?_⟩
  intro e h
  exact Outcome.noConfusion h

/-- Claim C3: on a connected client, each supported read code routes to
its matching transport operation with the documented timeout (5 s for
0x01/0x03/0x04, 1 s for 0x02), and any other code fails with the
unsupported-function error without issuing any transport call. -/
theorem c3_read_dispatch (env : TransportEnv) (c : ModbusClient)
    (fc a q : Nat) (h : c.ctx = some ()) :
    (c.read_registers env 0x01 a q).calls = [.readCoils a q 5] ∧
    (c.read_registers env 0x02 a q).calls = [.readDiscreteInputs a q 1] ∧
    (c.read_registers env 0x03 a q).calls = [.readHoldingRegisters a q 5] ∧
    (c.read_registers env 0x04 a q).calls = [.readInputRegisters a q 5] ∧
    (fc ≠ 0x01 → fc ≠ 0x02 → fc ≠ 0x03 → fc ≠ 0x04 →
      (c.read_registers env fc a q).outcome = .err .unsupportedFunction ∧
      (c.read_registers env fc a q).calls = []) := by
  obtain ⟨dev, ctx⟩ := c
  change ctx = some () at h
  subst h
  refine ⟨?_, ?_, ?_, ?_, ?_⟩
  · rcases h1 : env.read_coils a q <;>
      simp [ModbusClient.read_registers, h1]
  · rcases h1 : env.read_discrete_inputs a q <;>
      simp [ModbusClient.read_registers, h1]
  · rcases h1 : env.read_holding_registers a q <;>
      simp [ModbusClient.read_registers, h1]
  · rcases h1 : env.read_input_registers a q <;>
      simp [ModbusClient.read_registers, h1]
  · intro h1 h2 h3 h4
    simp [ModbusClient.read_registers, h1, h2, h3, h4]

/-- Claim C3 witness: concrete instantiation at the all-success transport
environment and function code 0x07. -/
theorem c3_witness :
    (connectedClient.read_registers okEnv 0x01 0 3).calls = [.readCoils 0 3 5] ∧
    (connectedClient.read_registers okEnv 0x02 0 3).calls = [.readDiscreteInputs 0 3 1] ∧
    (connectedClient.read_registers okEnv 0x03 0 3).calls = [.readHoldingRegisters 0 3 5] ∧
    (connectedClient.read_registers okEnv 0x04 0 3).calls = [.readInputRegisters 0 3 5] ∧
    (connectedClient.read_registers okEnv 0x07 0 3).outcome = .err .unsupportedFunction ∧
    (connectedClient.read_registers okEnv 0x07 0 3).calls = [] := by
  have h := c3_read_dispatch okEnv connectedClient 0x07 0 3 rfl
  have h5 := h.2.2.2.2 (by decide) (by decide) (by decide) (by decide)
  exact ⟨h.1, h.2.1, h.2.2.1, h.2.2.2.1, h5.1, h5.2⟩

/-- Claim C4: on a connected client, 0x05/0x06 writes with a quantity
other than 1 and 0x0F/0x10 writes whose value count differs from the
quantity fail with the matching invalid-argument error before any
transport call, and any code outside {0x05, 0x06, 0x0F, 0x10} fails with
the unsupported-function error, also with no transport call. -/
theorem c4_write_validation (env : TransportEnv) (c : ModbusClient)
    (fc a q : Nat) (vs : List Nat) (h : c.ctx = some ()) :
    (q ≠ 1 →
      (c.write_registers env 0x05 a q vs).outcome =
        .err (.invalidArgument "功能码0x05仅支持写入单个线圈") ∧
      (c.write_registers env 0x05 a q vs).calls = []) ∧
    (q ≠ 1 →
      (c.write_registers env 0x06 a q vs).outcome =
        .err (.invalidArgument "功能码0x06仅支持写入单个寄存器") ∧
      (c.write_registers env 0x06 a q vs).calls = []) ∧
    (vs.length ≠ q →
      (c.write_registers env 0x0F a q vs).outcome =
        .err (.invalidArgument "值的长度是与数量不匹配") ∧
      (c.write_registers env 0x0F a q vs).calls = []) ∧
    (vs.length ≠ q →
      (c.write_registers env 0x10 a q vs).outcome =
        .err (.invalidArgument "值的长度与数量不匹配") ∧
      (c.write_registers env 0x10 a q vs).calls = []) ∧
    (fc ≠ 0x05 → fc ≠ 0x06 → fc ≠ 0x0F → fc ≠ 0x10 →
      (c.write_registers env fc a q vs).outcome = .err .unsupportedFunction ∧
      (c.write_registers env fc a q vs).calls = []) := by
  obtain ⟨dev, ctx⟩ := c
  change ctx = some () at h
  subst h
  refine ⟨?_, ?_, ?_, ?_, ?_⟩
  · intro hq
    simp [ModbusClient.write_registers, hq]
  · intro hq
    simp [ModbusClient.write_registers, hq]
  · intro hl
    simp [ModbusClient.write_registers, hl]
  · intro hl
    simp [ModbusClient.write_registers, hl]
  · intro h5 h6 hf h10
    simp [ModbusClient.write_registers, h5, h6, hf, h10]

/-- Claim C4 witness: concrete instantiation with quantity 2 for the
single-element codes, a 1-element value list against quantity 2 for the
multi-element codes, and function code 0x09 for the unsupported case. -/
theorem c4_witness :
    (connectedClient.write_registers okEnv 0x05 0 2 [1, 1]).outcome =
      .err (.invalidArgument "功能码0x05仅支持写入单个线圈") ∧
    (connectedClient.write_registers okEnv 0x05 0 2 [1, 1]).calls = [] ∧
    (connectedClient.write_registers okEnv 0x06 0 2 [1, 1]).outcome =
      .err (.invalidArgument "功能码0x06仅支持写入单个寄存器") ∧
    (connectedClient.write_registers okEnv 0x0F 0 2 [1]).outcome =
      .err (.invalidArgument "值的长度是与数量不匹配") ∧
    (connectedClient.write_registers okEnv 0x0F 0 2 [1]).calls = [] ∧
    (connectedClient.write_registers okEnv 0x10 0 2 [1]).outcome =
      .err (.invalidArgument "值的长度与数量不匹配") ∧
    (connectedClient.write_registers okEnv 0x09 0 1 [1]).outcome =
      .err .unsupportedFunction ∧
    (connectedClient.write_registers okEnv 0x09 0 1 [1]).calls = [] := by
  have ha := c4_write_validation okEnv connectedClient 0x09 0 2 [1, 1] rfl
  have hb := c4_write_validation okEnv connectedClient 0x09 0 2 [1] rfl
  have hc := c4_write_validation okEnv connectedClient 0x09 0 1 [1] rfl
  have h1 := ha.1 (by decide)
  have h2 := ha.2.1 (by decide)
  have h3 := hb.2.2.1 (by decide)
  have h4 := hb.2.2.2.1 (by decide)
  have h5 := hc.2.2.2.2 (by decide) (by decide) (by decide) (by decide)
  exact ⟨h1.1, h1.2, h2.1, h3.1, h3.2, h4.1, h5.1, h5.2⟩

/-- Claim C5: when the socket address parses, `connect` has exactly the
three documented mutually exclusive outcomes: a session established within
the window stores the context and succeeds, a transport failure within the
window propagates as a connection error, and an elapsed window yields the
connection-timeout error, which is a different error value from every
connection error. -/
theorem c5_connect_outcomes (env : ConnectEnv) (c : ModbusClient)
    (h : env.parse_ok = true) :
    (env.attempt = .established →
      c.connect env = (.ok (), { c with ctx := some () })) ∧
    (∀ m, env.attempt = .failed m →
      c.connect env = (.err (.connection (.transport m)), c)) ∧
    (env.attempt = .elapsed →
      c.connect env = (.err .connectionTimeout, c)) ∧
    (∀ cause, MbError.connectionTimeout ≠ .connection cause) := by
  obtain ⟨p, att⟩ := env
  change p = true at h
  subst h
  refine ⟨?_, ?_, ?_, ?_⟩
  · intro ha
    change att = ConnectAttempt.established at ha
    subst ha
    rfl
  · intro m ha
    change att = ConnectAttempt.failed m at ha
    subst ha
    rfl
  · intro ha
    change att = ConnectAttempt.elapsed at ha
    subst ha
    rfl
  · intro cause hc
    exact MbError.noConfusion hc

/-- Claim C5 witness: concrete instantiation at the three connection
attempt results. -/
theorem c5_witness :
    freshClient.connect ⟨true, .established⟩ = (.ok (), connectedClient) ∧
    freshClient.connect ⟨true, .failed "connection refused"⟩ =
      (.err (.connection (.transport "connection refused")), freshClient) ∧
    freshClient.connect ⟨true, .elapsed⟩ =
      (.err .connectionTimeout, freshClient) ∧
    MbError.connectionTimeout ≠ .connection (.transport "connection refused") := by
  have ha := c5_connect_outcomes ⟨true, .established⟩ freshClient rfl
  have hb := c5_connect_outcomes ⟨true, .failed "connection refused"⟩ freshClient rfl
  have hc := c5_connect_outcomes ⟨true, .elapsed⟩ freshClient rfl
  exact ⟨ha.1 rfl, hb.2.1 "connection refused" rfl, hc.2.2.1 rfl,
    ha.2.2.2 (.transport "connection refused")⟩

/-- Claim C6: on a connected client, a successful 0x01/0x02 read returns
the transport's boolean sequence widened element-wise in order (true ↦ 1,
false ↦ 0), and a successful 0x03/0x04 read returns the transport's
16-bit sequence unchanged. -/
theorem c6_read_shaping (env : TransportEnv) (c : ModbusClient)
    (a q : Nat) (bsa bsb : List Bool) (wsa wsb : List Nat)
    (h : c.ctx = some ())
    (h1 : env.read_coils a q = .success bsa)
    (h2 : env.read_discrete_inputs a q = .success bsb)
    (h3 : env.read_holding_registers a q = .success wsa)
    (h4 : env.read_input_registers a q = .success wsb) :
    (c.read_registers env 0x01 a q).outcome = .ok (bsa.map boolToRegister) ∧
    (c.read_registers env 0x02 a q).outcome = .ok (bsb.map boolToRegister) ∧
    (c.read_registers env 0x03 a q).outcome = .ok wsa ∧
    (c.read_registers env 0x04 a q).outcome = .ok wsb ∧
    boolToRegister true = 1 ∧ boolToRegister false = 0 := by
  obtain ⟨dev, ctx⟩ := c
  change ctx = some () at h
  subst h
  refine ⟨?_, ?_, ?_, ?_, rfl, rfl⟩
  · simp [ModbusClient.read_registers, h1]
  · simp [ModbusClient.read_registers, h2]
  · simp [ModbusClient.read_registers, h3]
  · simp [ModbusClient.read_registers, h4]

/-- Claim C6 witness: concrete instantiation — booleans
`[true, false, true]` become `[1, 0, 1]` and registers `[10, 20, 30]`
pass through unchanged. -/
theorem c6_witness :
    (connectedClient.read_registers okEnv 0x01 0 3).outcome = .ok [1, 0, 1] ∧
    (connectedClient.read_registers okEnv 0x02 0 3).outcome = .ok [1, 0, 1] ∧
    (connectedClient.read_registers okEnv 0x03 0 3).outcome = .ok [10, 20, 30] ∧
    (connectedClient.read_registers okEnv 0x04 0 3).outcome = .ok [10, 20, 30] := by
  have h := c6_read_shaping okEnv connectedClient 0 3
    [true, false, true] [true, false, true] [10, 20, 30] [10, 20, 30]
    rfl rfl rfl rfl rfl
  exact ⟨h.1, h.2.1, h.2.2.1, h.2.2.2.1⟩

/-- Claim C7: on a connected client, validated coil writes transmit each
value through the `value ≥ 1` boolean encoding in order: 0x05 transmits
the encoding of the first value, and 0x0F transmits the element-wise
encoding of the whole value list; 0 encodes to false and every value ≥ 1
encodes to true. -/
theorem c7_coil_write_mapping (env : TransportEnv) (c : ModbusClient)
    (a q v : Nat) (rest vs : List Nat)
    (h : c.ctx = some ()) (hq : vs.length = q) :
    (c.write_registers env 0x05 a 1 (v :: rest)).calls =
      [.writeSingleCoil a (coilValue v) 5] ∧
    (c.write_registers env 0x0F a q vs).calls =
      [.writeMultipleCoils a (vs.map coilValue) 5] ∧
    coilValue 0 = false ∧ (∀ w, 1 ≤ w → coilValue w = true) := by
  obtain ⟨dev, ctx⟩ := c
  change ctx = some () at h
  subst h
  subst hq
  refine ⟨rfl, ?_, rfl, ?_⟩
  · simp [ModbusClient.write_registers]
  · intro w hw
    simp [coilValue, hw]

/-- Claim C7 witness: concrete instantiation — values `[0, 1, 2, 255]`
transmit as coils `[false, true, true, true]`, and a 0x05 write of value 2
transmits coil true. -/
theorem c7_witness :
    (connectedClient.write_registers okEnv 0x05 0 1 [2]).calls =
      [.writeSingleCoil 0 true 5] ∧
    (connectedClient.write_registers okEnv 0x0F 0 4 [0, 1, 2, 255]).calls =
      [.writeMultipleCoils 0 [false, true, true, true] 5] ∧
    coilValue 0 = false ∧ coilValue 255 = true := by
  have h := c7_coil_write_mapping okEnv connectedClient 0 4 2 [] [0, 1, 2, 255]
    rfl rfl
  exact ⟨h.1, h.2.1, h.2.2.1, h.2.2.2 255 (by decide)⟩

/-- Claim C8: a read or write on a connected client returns the client
unchanged — whatever the outcome, the stored transport context is still
present afterwards; neither operation ever transitions the client out of
the connected state. -/
theorem c8_ops_preserve_connection (env : TransportEnv) (c : ModbusClient)
    (fc a q : Nat) (vs : List Nat) (h : c.ctx = some ()) :
    (c.read_registers env fc a q).client = c ∧
    (c.read_registers env fc a q).client.ctx = some () ∧
    (c.write_registers env fc a q vs).client = c ∧
    (c.write_registers env fc a q vs).client.ctx = some () := by
  refine ⟨read_registers_client c env fc a q, ?_,
    write_registers_client c env fc a q vs, ?_⟩
  · rw [read_registers_client c env fc a q]
    exact h
  · rw [write_registers_client c env fc a q vs]
    exact h

/-- Claim C8 witness: concrete instantiation at a failing read
(unsupported code 0x07) and a failing write (bad quantity) on the
connected client. -/
theorem c8_witness :
    (connectedClient.read_registers okEnv 0x07 0 3).client = connectedClient ∧
    (connectedClient.read_registers okEnv 0x07 0 3).client.ctx = some () ∧
    (connectedClient.write_registers okEnv 0x05 0 2 [1]).client = connectedClient ∧
    (connectedClient.write_registers okEnv 0x05 0 2 [1]).client.ctx = some () := by
  have ha := c8_ops_preserve_connection okEnv connectedClient 0x07 0 3 [1] rfl
  have hb := c8_ops_preserve_connection okEnv connectedClient 0x05 0 2 [1] rfl
  exact ⟨ha.1, ha.2.1, hb.2.2.1, hb.2.2.2⟩

/-- Claim C9: on a connected client, a 0x05 or 0x06 write with
quantity 1 and an empty value list is not rejected by the documented
validation — the unchecked `values[0]` index is out of bounds, the
operation panics rather than returning an invalid-argument error, and no
transport call is issued. -/
theorem c9_empty_values_out_of_bounds (env : TransportEnv)
    (c : ModbusClient) (a : Nat) (h : c.ctx = some ()) :
    (c.write_registers env 0x05 a 1 []).outcome =
      .panicked "index out of bounds: the len is 0 but the index is 0" ∧
    (c.write_registers env 0x05 a 1 []).calls = [] ∧
    (c.write_registers env 0x06 a 1 []).outcome =
      .panicked "index out of bounds: the len is 0 but the index is 0" ∧
    (c.write_registers env 0x06 a 1 []).calls = [] ∧
    (∀ m, (c.write_registers env 0x05 a 1 []).outcome ≠
      .err (.invalidArgument m)) ∧
    (∀ m, (c.write_registers env 0x06 a 1 []).outcome ≠
      .err (.invalidArgument m)) := by
  obtain ⟨dev, ctx⟩ := c
  change ctx = some () at h
  subst h
  refine ⟨rfl, rfl, rfl, rfl, ?_, ?_⟩
  · intro m hm
    exact Outcome.noConfusion hm
  · intro m hm
    exact Outcome.noConfusion hm

/-- Claim C9 witness: concrete instantiation on the connected client at
address 0. -/
theorem c9_witness :
    (connectedClient.write_registers okEnv 0x05 0 1 []).outcome =
      .panicked "index out of bounds: the len is 0 but the index is 0" ∧
    (connectedClient.write_registers okEnv 0x05 0 1 []).calls = [] ∧
    (connectedClient.write_registers okEnv 0x06 0 1 []).outcome =
      .panicked "index out of bounds: the len is 0 but the index is 0" ∧
    (connectedClient.write_registers okEnv 0x06 0 1 []).calls = [] ∧
    (connectedClient.write_registers okEnv 0x05 0 1 []).outcome ≠
      .err (.invalidArgument "功能码0x05仅支持写入单个线圈") := by
  have h := c9_empty_values_out_of_bounds okEnv connectedClient 0 rfl
  exact ⟨h.1, h.2.1, h.2.2.1, h.2.2.2.1,
    h.2.2.2.2.1 "功能码0x05仅支持写入单个线圈"⟩

/-- Claim C10: when the configuration file does not exist and the
serialization and file operations succeed, `read_config` creates the file
with the serialized default configuration and returns the default
configuration — a single placeholder/template gateway entry — as a
success. -/
theorem c10_absent_file_creates_default (env : DeviceConfig.ConfigIoEnv)
    (fs : DeviceConfig.FsState) (p y : String)
    (h0 : fs.hasFile p = false)
    (h1 : env.try_exists_error = false)
    (h2 : env.open_error = false)
    (h3 : env.write_error = false)
    (h4 : env.to_yaml DeviceConfig.default_config = some y) :
    DeviceConfig.read_config env fs p =
      (.ok DeviceConfig.default_config, fs.writeFile p y) ∧
    DeviceConfig.default_config.gateways =
      [{ ip := "模板", port := 0, slave_ids := [] }] := by
  refine ⟨?_, rfl⟩
  simp [DeviceConfig.read_config, h0, h1, h2, h3, h4]

/-- Claim C10 witness: concrete instantiation on an empty filesystem with
a functioning codec. -/
theorem c10_witness :
    DeviceConfig.read_config sampleConfigEnv ⟨[]⟩ "modbus_config.yaml" =
      (.ok DeviceConfig.default_config,
        DeviceConfig.FsState.writeFile ⟨[]⟩ "modbus_config.yaml"
          "gateways: 模板") ∧
    DeviceConfig.default_config.gateways =
      [{ ip := "模板", port := 0, slave_ids := [] }] := by
  exact c10_absent_file_creates_default sampleConfigEnv ⟨[]⟩
    "modbus_config.yaml" "gateways: 模板" rfl rfl rfl rfl rfl
